import Mathlib

/-!
Verification of the data-shaping and chart-composition pipeline of
`src/dashboard.py` (cryptograph-dashboard).

The script is straight-line Python over pandas/plotly objects.  We embed it
shallowly: pandas Series become `List ℚ`, DataFrames become association
lists of named columns, Python attribute access on the externally produced
portfolio object becomes `Option` fields (a missing attribute is `none`),
and a failing access raises an error through `Except`.  Plotly figures
become explicit `Trace`/`Chart` data.
-/

namespace Dashboard

/-- Errors that can abort a render pass.  `missingData` models a Python
`AttributeError` on a required attribute of the portfolio object — the
failure mode the spec's error taxonomy names `MissingDataError`.
`indexError` models `value.iloc[0]` on an empty series.  `nameError`
models referencing the local variable `tsub` before it is bound. -/
inductive RunError where
  | missingData
  | indexError
  | nameError
  | notFound
  deriving DecidableEq, Repr

/-- One row of `pf.trades.records_readable`.  We carry the four cells the
dashboard reads; whether a column may be read at all is governed by the
trade log's `columns` list, mirroring a DataFrame's column set. -/
structure TradeRow where
  entryIdx : ℚ
  entryPrice : ℚ
  exitIdx : ℚ
  exitPrice : ℚ
  deriving DecidableEq, Repr

/-- The trade log `pf.trades.records_readable`: a DataFrame with a column
set and ordered rows. -/
structure TradeLog where
  columns : List String
  rows : List TradeRow
  deriving DecidableEq, Repr

/-- Settings dictionary passed to `pf.stats`. -/
structure StatsSettings where
  risk_free_rate : ℚ
  freq : String
  deriving DecidableEq, Repr

/-- A pandas Series of named scalar statistics (the shape `pf.stats(...)`
returns for a single portfolio). -/
def StatsSeries : Type := List (String × ℚ)

/-- Marker styling (the `marker=dict(...)` argument). -/
structure MarkerStyle where
  symbol : String
  color : String
  size : Nat
  line_width : Nat
  deriving DecidableEq, Repr

/-- A plotly trace added to a figure. -/
inductive Trace where
  | candlestick (x : List ℚ) (o h l c : List ℚ) (name : String)
      (increasing_line_color decreasing_line_color : String) (showlegend : Bool)
  | scatterLine (x : List ℚ) (y : List ℚ) (name : String)
      (line_width : ℚ) (line_color : String)
  | scatterglMarkers (x y : List ℚ) (name : String)
      (marker : MarkerStyle) (hovertemplate : String)
  deriving DecidableEq, Repr

/-- The layout options `apply_layout` sets (lines 77–90). -/
structure LayoutOpts where
  height : Nat
  margin_l : Nat
  margin_r : Nat
  margin_t : Nat
  margin_b : Nat
  template : String
  xaxis_rangeslider_visible : Bool
  hovermode : String
  uirevision : String
  paper_bgcolor : String
  plot_bgcolor : String
  font_color : String
  legend_bgcolor : String
  yaxis_showgrid : Bool
  yaxis_gridcolor : String
  xaxis_showgrid : Bool
  deriving DecidableEq, Repr

/-- A figure: traces plus (once themed) layout options. -/
structure Chart where
  traces : List Trace
  layout : Option LayoutOpts
  deriving DecidableEq, Repr

/-- The externally produced portfolio result object.  Attributes that the
script probes with `hasattr` are `Option`-valued; `none` is a missing
attribute.  The plotting routines and the statistics function are
externally implemented collaborators, carried as data/functions on the object. -/
structure Portfolio where
  value : Option (List ℚ)
  «open» : Option (List ℚ)
  high : Option (List ℚ)
  low : Option (List ℚ)
  close : Option (List ℚ)
  trades : TradeLog
  total_return : ℚ
  sharpe_ratio : ℚ
  max_drawdown : ℚ
  stats : StatsSettings → StatsSeries
  plot_cumulative_returns : Chart
  plot_drawdowns : Chart

/-- A DataFrame of named price columns, in construction order. -/
def Frame : Type := List (String × List ℚ)

/-- The column names of a frame (`ohlc.columns`). -/
def Frame.columns (f : Frame) : List String := f.map Prod.fst

/-- Column access `f[c]`. -/
def Frame.col (f : Frame) (c : String) : List ℚ := (f.lookup c).getD []

/-- Number of rows of the frame (length of its first column). -/
def Frame.nrows (f : Frame) : Nat :=
  match f with
  | [] => 0
  | (_, d) :: _ => d.length

/-- The frame's default `RangeIndex` (`ohlc.index`). -/
def Frame.index (f : Frame) : List ℚ := (List.range f.nrows).map (fun i => (i : ℚ))

/-- Lines 56–66: the OHLC fallback chain.
`if all(hasattr(pf, a) for a in ["open","high","low","close"]): ...`
`elif hasattr(pf, "close"): ...` `else: ... pf.value`.  `value` is the
equity series already extracted on line 52. -/
def ohlcFrame (pf : Portfolio) (value : List ℚ) : Frame :=
  match pf.open, pf.high, pf.low, pf.close with
  | some o, some h, some l, some c =>
      [("Open", o), ("High", h), ("Low", l), ("Close", c)]
  | _, _, _, some c => [("Close", c)]
  | _, _, _, none => [("Close", value)]

/-- The series derived in the "Base data" section (lines 51–66). -/
structure Extracted where
  trades : TradeLog
  value : List ℚ
  returns : List ℚ
  price_frame : Frame

/-- Lines 51–66: extract the display series from the portfolio object.
`trades = pf.trades.records_readable`; `value = pf.value` (AttributeError
if absent); `returns = value / value.iloc[0] - 1` (IndexError if empty);
then the OHLC fallback chain. -/
def extract (pf : Portfolio) : Except RunError Extracted :=
  match pf.value with
  | none => .error .missingData
  | some value =>
    match value.head? with
    | none => .error .indexError
    | some v0 =>
      .ok { trades := pf.trades
            value := value
            returns := value.map (fun v => v / v0 - 1)
            price_frame := ohlcFrame pf value }

/-- Pandas slicing `l.iloc[::k]` for `k ≥ 1`: every `k`-th element
starting at index 0. -/
def everyNth (k : Nat) : List TradeRow → List TradeRow
  | [] => []
  | a :: rest => a :: everyNth k (rest.drop (k - 1))
termination_by l => l.length
decreasing_by
  simp only [List.length_cons, List.length_drop]
  omega

/-- Line 129: the marker downsampling stride `max(1, n // 1200)`. -/
def stride (n : Nat) : Nat := max 1 (n / 1200)

/-- Line 130: `tsub = trades.iloc[::step] if step > 1 else trades`. -/
def tsubOf (trades : TradeLog) : TradeLog :=
  let n := trades.rows.length
  let step := stride n
  if step > 1 then { trades with rows := everyNth step trades.rows } else trades

/-- Lines 76–91: `apply_layout(fig, height)` — overwrite the themed layout
options, keep the traces. -/
def apply_layout (fig : Chart) (height : Nat) : Chart :=
  { fig with
    layout := some
      { height := height
        margin_l := 0, margin_r := 0, margin_t := 40, margin_b := 0
        template := "plotly_dark"
        xaxis_rangeslider_visible := false
        hovermode := "x unified"
        uirevision := "keep"
        paper_bgcolor := "#0d0b1e"
        plot_bgcolor := "#0d0b1e"
        font_color := "#EDEBFF"
        legend_bgcolor := "rgba(0,0,0,0)"
        yaxis_showgrid := true
        yaxis_gridcolor := "rgba(255,255,255,0.12)"
        xaxis_showgrid := false } }

/-- Line 124: `has_entry = {"Entry Index", "Avg Entry Price"}.issubset(trades.columns)`. -/
def has_entry (trades : TradeLog) : Bool :=
  trades.columns.contains "Entry Index" && trades.columns.contains "Avg Entry Price"

/-- Line 125: `has_exit = {"Exit Index", "Avg Exit Price"}.issubset(trades.columns)`. -/
def has_exit (trades : TradeLog) : Bool :=
  trades.columns.contains "Exit Index" && trades.columns.contains "Avg Exit Price"

/-- Lines 127–130: `tsub` is bound only when `has_entry or has_exit`;
outside that branch the name stays unbound (`none`). -/
def tsubBinding (trades : TradeLog) : Option TradeLog :=
  if has_entry trades || has_exit trades then some (tsubOf trades) else none

/-- Lines 102–121: the price trace — candlestick when the frame has all
four OHLC columns, otherwise a line over Close. -/
def priceTrace (ohlc : Frame) : Trace :=
  if ["Open", "High", "Low", "Close"].all (fun c => ohlc.columns.contains c) then
    .candlestick ohlc.index (ohlc.col "Open") (ohlc.col "High") (ohlc.col "Low")
      (ohlc.col "Close") "Price" "#7B61FF" "#FF4C4C" true
  else
    .scatterLine ohlc.index (ohlc.col "Close") "Close" (8/5) "#7B61FF"

/-- Lines 99–152: compose the price figure.  Reading `tsub` while unbound
would be a Python `NameError`; the guard structure is kept exactly. -/
def fig_price (ohlc : Frame) (trades : TradeLog) : Except RunError Chart := do
  let price := priceTrace ohlc
  let tsub? := tsubBinding trades
  let entryTraces ←
    if has_entry trades then do
      let tsub ← match tsub? with
        | some t => Except.ok t
        | none => Except.error RunError.nameError
      Except.ok [Trace.scatterglMarkers (tsub.rows.map (·.entryIdx))
        (tsub.rows.map (·.entryPrice)) "Entry"
        ⟨"triangle-up", "rgba(0,255,0,0.6)", 6, 0⟩
        "Entry<br>%\x7bx\x7d<br>Price: %\x7by:.2f\x7d<extra></extra>"]
    else Except.ok []
  let exitTraces ←
    if has_exit trades then do
      let tsub ← match tsub? with
        | some t => Except.ok t
        | none => Except.error RunError.nameError
      Except.ok [Trace.scatterglMarkers (tsub.rows.map (·.exitIdx))
        (tsub.rows.map (·.exitPrice)) "Exit"
        ⟨"triangle-down", "rgba(255,0,0,0.65)", 6, 0⟩
        "Exit<br>%\x7bx\x7d<br>Price: %\x7by:.2f\x7d<extra></extra>"]
    else Except.ok []
  Except.ok (apply_layout ⟨price :: (entryTraces ++ exitTraces), none⟩ 360)

/-- Two decimal digits, left-padded with a zero (`04`, `37`). -/
def pad2 (m : Nat) : String := if m < 10 then "0" ++ toString m else toString m

/-- Python float formatting `f"\x7bq:.2f\x7d"`: round to the nearest
hundredth and print with exactly two digits after the decimal point. -/
def fmt2 (q : ℚ) : String :=
  let n : ℤ := round (q * 100)
  let sign := if n < 0 then "-" else ""
  let a := n.natAbs
  sign ++ toString (a / 100) ++ "." ++ pad2 (a % 100)

/-- Transposing a pandas Series (line 183's `stats.T`) is the identity:
the statistics object returned by `pf.stats` for a single portfolio is
1-dimensional, and `Series.T` returns the series itself. -/
def seriesT (s : StatsSeries) : StatsSeries := s

/-- The metrics region of tab 2 as rendered data. -/
structure MetricsView where
  total_return_text : String
  sharpe_ratio_text : String
  max_drawdown_text : String
  stats_settings : StatsSettings
  stats_table : StatsSeries

/-- Lines 175–183: the three headline metric strings, and the statistics
table `pf.stats(settings=dict(risk_free_rate=0.0, freq="1D"))` displayed
as `stats.T`. -/
def metricsView (pf : Portfolio) : MetricsView :=
  let settings : StatsSettings := ⟨0, "1D"⟩
  { total_return_text := fmt2 (pf.total_return * 100) ++ "%"
    sharpe_ratio_text := fmt2 pf.sharpe_ratio
    max_drawdown_text := fmt2 (pf.max_drawdown * 100) ++ "%"
    stats_settings := settings
    stats_table := seriesT (pf.stats settings) }

/-- Everything one render pass puts on the page. -/
structure Page where
  charts : List Chart
  metrics : MetricsView

/-- Lines 96–167: the chart region of tab 1, a pure function of the
extracted series plus the figures returned by the portfolio's own plotting
routines (`pf.plot_cumulative_returns()`, `pf.plot_drawdowns()`), each
re-themed through `apply_layout`. -/
def composeCharts (ex : Extracted) (cumFig ddFig : Chart) :
    Except RunError (List Chart) := do
  let figP ← fig_price ex.price_frame ex.trades
  Except.ok [figP, apply_layout cumFig 340, apply_layout ddFig 340]

/-- Lines 96–183: one full render pass for an already-loaded portfolio:
extract the series, compose the three charts of tab 1, and the metrics of
tab 2.  Any error aborts the whole pass — no incomplete page. -/
def renderPass (pf : Portfolio) : Except RunError Page := do
  let ex ← extract pf
  let charts ← composeCharts ex pf.plot_cumulative_returns pf.plot_drawdowns
  Except.ok { charts := charts, metrics := metricsView pf }

/-- The persisted artifacts on disk, keyed by path. -/
structure Storage where
  artifacts : String → Option Portfolio

/-- Python `str.lower()`: lower-case every character. -/
def pyLower (s : String) : String := String.mk (s.data.map Char.toLower)

/-- Line 43: `path = f"data/\x7bname.lower()\x7d_backtest.pkl"`. -/
def path_of (name : String) : String := "data/" ++ pyLower name ++ "_backtest.pkl"

/-- The process-wide state of the `st.cache_resource` cache, plus a count
of actual storage reads (to observe cache hits). -/
structure LoaderState where
  cache : List (String × Portfolio)
  reads : Nat

/-- Modelled from the spec: the memoization of `@st.cache_resource`, which
is implemented by the Streamlit library and not present in this
repository.  Per the spec, the result is cached keyed by the strategy
identifier argument, a repeated call returns the cached object without
re-reading storage, and the cache is not populated on failure.  The body
of the decorated function (lines 42–44) is translated from the source:
resolve the path and deserialize (`vbt.load`), failing when no artifact
exists at the path. -/
def load_portfolio (storage : Storage) (name : String) (s : LoaderState) :
    Except RunError Portfolio × LoaderState :=
  match s.cache.lookup name with
  | some pf => (Except.ok pf, s)
  | none =>
    match storage.artifacts (path_of name) with
    | some pf =>
        (Except.ok pf, { cache := (name, pf) :: s.cache, reads := s.reads + 1 })
    | none => (Except.error RunError.notFound, { s with reads := s.reads + 1 })

/-- Recognize the entry-marker trace (named "Entry", line 137). -/
def Trace.isEntryMarker : Trace → Bool
  | .scatterglMarkers _ _ n _ _ => n == "Entry"
  | _ => false

/-- Recognize the exit-marker trace (named "Exit", line 147). -/
def Trace.isExitMarker : Trace → Bool
  | .scatterglMarkers _ _ n _ _ => n == "Exit"
  | _ => false

/-! Concrete sample objects, used to evaluate the theorems below on
closed inputs. -/

/-- A portfolio exposing all four OHLC attributes (and everything else). -/
def samplePfFull : Portfolio :=
  { value := some [100, 110, 99]
    «open» := some [1, 2]
    high := some [3, 4]
    low := some [0, 1]
    close := some [2, 3]
    trades := ⟨[], []⟩
    total_return := 1/2
    sharpe_ratio := 1
    max_drawdown := -1/10
    stats := fun _ => []
    plot_cumulative_returns := ⟨[], none⟩
    plot_drawdowns := ⟨[], none⟩ }

/-- A portfolio whose equity value attribute is missing entirely. -/
def samplePfNoValue : Portfolio :=
  { samplePfFull with value := none }

/-- A trade log with only the entry column pair. -/
def entryOnlyLog : TradeLog :=
  ⟨["Entry Index", "Avg Entry Price"], [⟨1, 2, 3, 4⟩]⟩

/-- A trade log with no marker columns at all. -/
def emptyLog : TradeLog := ⟨[], []⟩

/-- A close-only price frame. -/
def closeFrame : Frame := [("Close", [1, 2])]

/-- A trade log of 1201 rows with both column pairs: just above the
presentation threshold, yet `1201 / 1200 = 1`, so no subsampling. -/
def log1201 : TradeLog :=
  ⟨["Entry Index", "Avg Entry Price", "Exit Index", "Avg Exit Price"],
   List.replicate 1201 ⟨0, 0, 0, 0⟩⟩

/-- A trade log of 2400 rows, where the stride becomes 2. -/
def log2400 : TradeLog :=
  ⟨["Entry Index", "Avg Entry Price", "Exit Index", "Avg Exit Price"],
   List.replicate 2400 ⟨0, 0, 0, 0⟩⟩

/-- The artifact store holding `samplePfFull` for strategy "SAF1". -/
def sampleStorage : Storage :=
  ⟨fun p => if p == "data/saf1_backtest.pkl" then some samplePfFull else none⟩

/-- The loader cache after one successful load of "SAF1". -/
def sampleState1 : LoaderState := ⟨[("SAF1", samplePfFull)], 1⟩

/-- A concrete extracted-series bundle. -/
def sampleExtracted : Extracted :=
  { trades := emptyLog, value := [1, 2], returns := [0, 1]
    price_frame := closeFrame }

/-! Helper lemmas about the subsampling primitive. -/

/-- With stride `k ≥ 1`, `everyNth` keeps `⌈n / k⌉ = (n + k - 1) / k` of
`n` rows. -/
theorem everyNth_length (k : Nat) (hk : 1 ≤ k) (l : List TradeRow) :
    (everyNth k l).length = (l.length + k - 1) / k := by
  induction l using everyNth.induct k with
  | case1 =>
    rw [everyNth]
    simp only [List.length_nil, Nat.zero_add]
    exact (Nat.div_eq_of_lt (by omega)).symm
  | case2 a rest ih =>
    rw [everyNth]
    rw [List.length_cons, List.length_cons, ih, List.length_drop]
    rw [show rest.length + 1 + k - 1 = rest.length + k by omega,
      Nat.add_div_right _ (by omega : 0 < k)]
    rcases le_or_lt (k - 1) rest.length with hm | hm
    · rw [show rest.length - (k - 1) + k - 1 = rest.length by omega]
    · rw [show rest.length - (k - 1) = 0 by omega, Nat.zero_add,
        Nat.div_eq_of_lt (by omega), Nat.div_eq_of_lt (by omega)]

/-- Subsampling selects rows in original order: the result is a sublist. -/
theorem everyNth_sublist (k : Nat) (l : List TradeRow) :
    (everyNth k l).Sublist l := by
  induction l using everyNth.induct k with
  | case1 => rw [everyNth]
  | case2 a rest ih =>
    rw [everyNth]
    exact (ih.trans (List.drop_sublist _ _)).cons₂ a

/-! ## The claims -/

/-- C1: the price frame is selected by strict priority order: a portfolio
exposing all four of open/high/low/close gets the 4-column OHLC frame
(even when a Close-only frame would also be buildable); else one exposing
close gets the 1-column Close frame; else the equity value series serves
as a synthetic Close column. -/
theorem claim1_price_frame_priority (pf : Portfolio) (value : List ℚ) :
    (∀ o h l c, pf.open = some o → pf.high = some h → pf.low = some l →
      pf.close = some c →
      ohlcFrame pf value = [("Open", o), ("High", h), ("Low", l), ("Close", c)]) ∧
    (∀ c, ¬(pf.open.isSome ∧ pf.high.isSome ∧ pf.low.isSome) →
      pf.close = some c → ohlcFrame pf value = [("Close", c)]) ∧
    (pf.close = none → ohlcFrame pf value = [("Close", value)]) := by
  refine ⟨?_, ?_, ?_⟩
  · intro o h l c ho hh hl hc
    simp [ohlcFrame, ho, hh, hl, hc]
  · intro c hnot hc
    cases ho : pf.open <;> cases hh : pf.high <;> cases hl : pf.low <;>
      simp_all [ohlcFrame]
  · intro hc
    cases ho : pf.open <;> cases hh : pf.high <;> cases hl : pf.low <;>
      simp [ohlcFrame, ho, hh, hl, hc]

/-- C1 witness: `samplePfFull` exposes all four OHLC attributes (and a
close attribute), and the extractor builds the 4-column frame. -/
theorem claim1_witness :
    ohlcFrame samplePfFull [5] =
      [("Open", [1, 2]), ("High", [3, 4]), ("Low", [0, 1]), ("Close", [2, 3])] :=
  (claim1_price_frame_priority samplePfFull [5]).1 [1, 2] [3, 4] [0, 1] [2, 3]
    rfl rfl rfl rfl

/-- C8: whichever of the three fallback branches is taken, the constructed
price frame contains a Close column. -/
theorem claim8_close_column (pf : Portfolio) (value : List ℚ) :
    "Close" ∈ (ohlcFrame pf value).columns := by
  unfold ohlcFrame
  rcases pf.open with _ | o <;> rcases pf.high with _ | h <;>
    rcases pf.low with _ | l <;> rcases pf.close with _ | c <;>
    simp [Frame.columns]

/-- C2: when the equity series is non-empty with first element `v0 ≠ 0`,
extraction succeeds and the derived return series satisfies
`returns[i] = value[i] / v0 - 1` at every index; in particular
`returns[0] = 0`. -/
theorem claim2_returns (pf : Portfolio) (value : List ℚ) (v0 : ℚ)
    (hv : pf.value = some value) (h0 : value.head? = some v0) (hne : v0 ≠ 0) :
    ∃ ex, extract pf = Except.ok ex ∧ ex.value = value ∧
      (∀ i : Nat, ex.returns[i]? = (value[i]?).map (fun v => v / v0 - 1)) ∧
      ex.returns.head? = some 0 := by
  have hex : extract pf = Except.ok
      { trades := pf.trades, value := value
        returns := value.map (fun v => v / v0 - 1)
        price_frame := ohlcFrame pf value } := by
    simp [extract, hv, h0]
  refine ⟨_, hex, rfl, ?_, ?_⟩
  · intro i
    simp [List.getElem?_map]
  · simp [List.head?_map, h0, div_self hne]

/-- C2 witness: on the equity series `[100, 110, 99]` the first return is
0 and the second is `110 / 100 - 1`. -/
theorem claim2_witness :
    ∃ ex, extract samplePfFull = Except.ok ex ∧
      ex.returns.head? = some 0 ∧ ex.returns[1]? = some (110 / 100 - 1) := by
  obtain ⟨ex, h1, _, h3, h4⟩ :=
    claim2_returns samplePfFull [100, 110, 99] 100 rfl rfl (by norm_num)
  exact ⟨ex, h1, h4, by simpa using h3 1⟩

/-- C4: a portfolio missing the equity value attribute entirely makes
extraction fail with the missing-data error, and the render pass aborts
with that error before composing any chart. -/
theorem claim4_missing_value (pf : Portfolio) (h : pf.value = none) :
    extract pf = Except.error RunError.missingData ∧
    renderPass pf = Except.error RunError.missingData := by
  have he : extract pf = Except.error RunError.missingData := by
    simp [extract, h]
  refine ⟨he, ?_⟩
  simp only [renderPass, he]
  rfl

/-- C4 witness: the concrete portfolio without a value attribute. -/
theorem claim4_witness :
    extract samplePfNoValue = Except.error RunError.missingData ∧
    renderPass samplePfNoValue = Except.error RunError.missingData :=
  claim4_missing_value samplePfNoValue rfl

/-- C9: chart composition is deterministic — identical extracted input
series and identical externally plotted figures always yield identical
chart specifications; no randomness or hidden process state enters the
composition. -/
theorem claim9_determinism (ex1 ex2 : Extracted) (cum1 cum2 dd1 dd2 : Chart)
    (hex : ex1 = ex2) (hcum : cum1 = cum2) (hdd : dd1 = dd2) :
    composeCharts ex1 cum1 dd1 = composeCharts ex2 cum2 dd2 := by
  rw [hex, hcum, hdd]

/-- C9 witness: two runs on the same concrete series agree. -/
theorem claim9_witness :
    composeCharts sampleExtracted ⟨[], none⟩ ⟨[], none⟩ =
      composeCharts sampleExtracted ⟨[], none⟩ ⟨[], none⟩ :=
  claim9_determinism sampleExtracted sampleExtracted ⟨[], none⟩ ⟨[], none⟩
    ⟨[], none⟩ ⟨[], none⟩ rfl rfl rfl

/-- C10: with neither marker column pair present, the price-chart
composition is total: `tsub` stays unbound and is never read, no marker
trace is added, and the chart holds exactly the one price trace. -/
theorem claim10_no_marker_columns (ohlc : Frame) (trades : TradeLog)
    (hentry : has_entry trades = false) (hexit : has_exit trades = false) :
    tsubBinding trades = none ∧
    fig_price ohlc trades =
      Except.ok (apply_layout ⟨[priceTrace ohlc], none⟩ 360) := by
  constructor
  · simp [tsubBinding, hentry, hexit]
  · simp only [fig_price, tsubBinding, hentry, hexit, Bool.false_or,
      Bool.or_self, if_neg Bool.false_ne_true]
    rfl

/-- C10 witness: the empty trade log against a close-only frame. -/
theorem claim10_witness :
    tsubBinding emptyLog = none ∧
    fig_price closeFrame emptyLog =
      Except.ok (apply_layout ⟨[priceTrace closeFrame], none⟩ 360) :=
  claim10_no_marker_columns closeFrame emptyLog rfl rfl

/-- The rows of `tsub`, with the line-130 conditional made explicit. -/
theorem tsubOf_rows (trades : TradeLog) :
    (tsubOf trades).rows =
      if 1 < stride trades.rows.length
      then everyNth (stride trades.rows.length) trades.rows
      else trades.rows := by
  by_cases h : 1 < stride trades.rows.length <;> simp [tsubOf, h]

/-- The subsampled row count is `⌈n / stride⌉`. -/
theorem tsubOf_length (trades : TradeLog) :
    (tsubOf trades).rows.length =
      (trades.rows.length + stride trades.rows.length - 1) /
        stride trades.rows.length := by
  rw [tsubOf_rows]
  by_cases h : 1 < stride trades.rows.length
  · rw [if_pos h]
    exact everyNth_length _ (le_max_left _ _) _
  · rw [if_neg h]
    have h1 : stride trades.rows.length = 1 := by
      unfold stride at h ⊢
      omega
    rw [h1]
    omega

/-- C3 counterexample: a trade log of 1201 rows exceeds the threshold of
1200, yet `max(1, 1201 // 1200) = 1`, so no subsampling occurs and the
marker count is not strictly less than the trade count. -/
theorem claim3_counterexample :
    1200 < log1201.rows.length ∧
    ¬ (tsubOf log1201).rows.length < log1201.rows.length := by
  have hlen : log1201.rows.length = 1201 := List.length_replicate 1201 _
  have hs : stride log1201.rows.length = 1 := by
    rw [hlen]
    decide
  have ht : tsubOf log1201 = log1201 := by
    unfold tsubOf
    simp [hs]
  rw [ht, hlen]
  omega

/-- C3 (amended): for a trade log of length `n` the stride is
`max(1, n / 1200)`; the subsampled table keeps every stride-th row
starting at index 0, so its row count is `⌈n / stride⌉` and the kept rows
form a sublist (original order, nothing reordered); for `n ≤ 1200` the
stride is 1 and every trade is kept; and whenever `n ≥ 2400` — that is,
whenever the stride exceeds 1, not already when `n` merely exceeds
1200 — subsampling occurs and the marker count is strictly below `n`. -/
theorem claim3_subsampling (trades : TradeLog) :
    stride trades.rows.length = max 1 (trades.rows.length / 1200) ∧
    (tsubOf trades).rows.length =
      (trades.rows.length + stride trades.rows.length - 1) /
        stride trades.rows.length ∧
    (tsubOf trades).rows.Sublist trades.rows ∧
    (trades.rows.length ≤ 1200 →
      stride trades.rows.length = 1 ∧ tsubOf trades = trades) ∧
    (2400 ≤ trades.rows.length →
      1 < stride trades.rows.length ∧
      (tsubOf trades).rows.length < trades.rows.length) := by
  refine ⟨rfl, tsubOf_length trades, ?_, ?_, ?_⟩
  · rw [tsubOf_rows]
    by_cases h : 1 < stride trades.rows.length
    · rw [if_pos h]
      exact everyNth_sublist _ _
    · rw [if_neg h]
  · intro hle
    have hstr : stride trades.rows.length = 1 := by
      unfold stride
      omega
    refine ⟨hstr, ?_⟩
    unfold tsubOf
    simp [hstr]
  · intro h24
    have hs2 : 2 ≤ stride trades.rows.length := by
      unfold stride
      omega
    have hsn : stride trades.rows.length ≤ trades.rows.length := by
      unfold stride
      omega
    refine ⟨by omega, ?_⟩
    rw [tsubOf_length]
    rw [Nat.div_lt_iff_lt_mul (by omega : 0 < stride trades.rows.length)]
    have hmul : trades.rows.length * 2 ≤
        trades.rows.length * stride trades.rows.length :=
      Nat.mul_le_mul_left _ hs2
    omega

/-- C3 witness: at 2400 trades the stride is 2 and only 1200 markers
remain. -/
theorem claim3_witness :
    1 < stride log2400.rows.length ∧
    (tsubOf log2400).rows.length < log2400.rows.length :=
  (claim3_subsampling log2400).2.2.2.2
    (le_of_eq (List.length_replicate 2400 (⟨0, 0, 0, 0⟩ : TradeRow)).symm)

/-- The price trace (candlestick or line) is never a marker trace. -/
theorem priceTrace_not_marker (ohlc : Frame) :
    (priceTrace ohlc).isEntryMarker = false ∧
    (priceTrace ohlc).isExitMarker = false := by
  unfold priceTrace
  split <;> exact ⟨rfl, rfl⟩

/-- Lines 99–152 always succeed, producing the price trace followed by
the optional entry trace and the optional exit trace over `tsub`. -/
theorem fig_price_eq (ohlc : Frame) (trades : TradeLog) :
    fig_price ohlc trades = Except.ok (apply_layout
      ⟨priceTrace ohlc ::
        ((if has_entry trades
          then [Trace.scatterglMarkers ((tsubOf trades).rows.map (·.entryIdx))
            ((tsubOf trades).rows.map (·.entryPrice)) "Entry"
            ⟨"triangle-up", "rgba(0,255,0,0.6)", 6, 0⟩
            "Entry<br>%\x7bx\x7d<br>Price: %\x7by:.2f\x7d<extra></extra>"]
          else []) ++
         (if has_exit trades
          then [Trace.scatterglMarkers ((tsubOf trades).rows.map (·.exitIdx))
            ((tsubOf trades).rows.map (·.exitPrice)) "Exit"
            ⟨"triangle-down", "rgba(255,0,0,0.65)", 6, 0⟩
            "Exit<br>%\x7bx\x7d<br>Price: %\x7by:.2f\x7d<extra></extra>"]
          else [])), none⟩ 360) := by
  cases he : has_entry trades <;> cases hx : has_exit trades <;>
    simp [fig_price, tsubBinding, he, hx] <;> rfl

/-- The trace named "Entry" is an entry marker and not an exit marker. -/
theorem entry_trace_classify (x y : List ℚ) (st : MarkerStyle) (hov : String) :
    (Trace.scatterglMarkers x y "Entry" st hov).isEntryMarker = true ∧
    (Trace.scatterglMarkers x y "Entry" st hov).isExitMarker = false :=
  ⟨rfl, rfl⟩

/-- The trace named "Exit" is an exit marker and not an entry marker. -/
theorem exit_trace_classify (x y : List ℚ) (st : MarkerStyle) (hov : String) :
    (Trace.scatterglMarkers x y "Exit" st hov).isEntryMarker = false ∧
    (Trace.scatterglMarkers x y "Exit" st hov).isExitMarker = true :=
  ⟨rfl, rfl⟩

/-- C5: the two marker traces are independently optional — the figure
holds exactly one entry-marker trace when both entry columns are present
and none otherwise, and exactly one exit-marker trace when both exit
columns are present and none otherwise. -/
theorem claim5_markers_independent (ohlc : Frame) (trades : TradeLog) :
    ∃ ch, fig_price ohlc trades = Except.ok ch ∧
      ch.traces.countP Trace.isEntryMarker =
        (if has_entry trades then 1 else 0) ∧
      ch.traces.countP Trace.isExitMarker =
        (if has_exit trades then 1 else 0) := by
  obtain ⟨hpe, hpx⟩ := priceTrace_not_marker ohlc
  refine ⟨_, fig_price_eq ohlc trades, ?_, ?_⟩ <;>
    cases he : has_entry trades <;> cases hx : has_exit trades <;>
      simp [apply_layout, he, hx, hpe, hpx, List.countP_cons, List.countP_append,
        (entry_trace_classify _ _ _ _).1, (entry_trace_classify _ _ _ _).2,
        (exit_trace_classify _ _ _ _).1, (exit_trace_classify _ _ _ _).2]

/-- C5 witness: a trade log with only the entry column pair yields one
entry-marker trace and zero exit-marker traces. -/
theorem claim5_witness :
    ∃ ch, fig_price closeFrame entryOnlyLog = Except.ok ch ∧
      ch.traces.countP Trace.isEntryMarker = 1 ∧
      ch.traces.countP Trace.isExitMarker = 0 := by
  obtain ⟨ch, h1, h2, h3⟩ := claim5_markers_independent closeFrame entryOnlyLog
  refine ⟨ch, h1, ?_, ?_⟩
  · rw [h2]
    decide
  · rw [h3]
    decide

/-- C6: the loader is memoized per strategy identifier: after a
successful load the result sits in the cache under that identifier, and a
repeated invocation returns that cached object with the loader state —
including the storage-read counter — unchanged, hence behaviorally
identical derived series. -/
theorem claim6_loader_memoized (storage : Storage) (name : String)
    (s s1 : LoaderState) (pf : Portfolio)
    (h : load_portfolio storage name s = (Except.ok pf, s1)) :
    s1.cache.lookup name = some pf ∧
    ∃ pf2, load_portfolio storage name s1 = (Except.ok pf2, s1) ∧
      pf2 = pf ∧ extract pf2 = extract pf := by
  unfold load_portfolio at h
  have hlookup : s1.cache.lookup name = some pf := by
    cases hc : s.cache.lookup name with
    | some pf0 =>
      rw [hc] at h
      simp only [Prod.mk.injEq, Except.ok.injEq] at h
      obtain ⟨h1, h2⟩ := h
      rw [← h2, hc, h1]
    | none =>
      rw [hc] at h
      cases ha : storage.artifacts (path_of name) with
      | some pfa =>
        rw [ha] at h
        simp only [Prod.mk.injEq, Except.ok.injEq] at h
        obtain ⟨h1, h2⟩ := h
        rw [← h2]
        simp [List.lookup, h1]
      | none =>
        rw [ha] at h
        simp at h
  refine ⟨hlookup, pf, ?_, rfl, rfl⟩
  unfold load_portfolio
  rw [hlookup]

/-- C6 witness: loading "SAF1" again after a first successful load hits
the cache. -/
theorem claim6_witness :
    sampleState1.cache.lookup "SAF1" = some samplePfFull ∧
    ∃ pf2, load_portfolio sampleStorage "SAF1" sampleState1 =
        (Except.ok pf2, sampleState1) ∧
      pf2 = samplePfFull ∧ extract pf2 = extract samplePfFull := by
  have hpath : path_of "SAF1" = "data/saf1_backtest.pkl" := by decide
  refine claim6_loader_memoized sampleStorage "SAF1" ⟨[], 0⟩ sampleState1
    samplePfFull ?_
  simp only [load_portfolio, List.lookup, sampleStorage, hpath,
    beq_self_eq_true, if_true]
  rfl

/-- Padding prints exactly two characters for inputs below 100. -/
theorem pad2_length : ∀ m < 100, (pad2 m).length = 2 := by decide

/-- Formatted scalars always end in a decimal point followed by exactly
two characters. -/
theorem fmt2_two_decimals (q : ℚ) :
    ∃ pre frac, fmt2 q = pre ++ "." ++ frac ∧ frac.length = 2 := by
  refine ⟨(if round (q * 100) < 0 then "-" else "") ++
      toString ((round (q * 100)).natAbs / 100),
    pad2 ((round (q * 100)).natAbs % 100), rfl, ?_⟩
  exact pad2_length _ (Nat.mod_lt _ (by norm_num))

/-- C7: the metrics panel formats the three headline scalars with exactly
two decimal places (total return and max drawdown as percentage strings,
Sharpe as a plain ratio string), requests the statistics table with
risk-free rate 0 and daily frequency, and displays that table unchanged. -/
theorem claim7_metrics_panel (pf : Portfolio) :
    (metricsView pf).total_return_text = fmt2 (pf.total_return * 100) ++ "%" ∧
    (metricsView pf).sharpe_ratio_text = fmt2 pf.sharpe_ratio ∧
    (metricsView pf).max_drawdown_text = fmt2 (pf.max_drawdown * 100) ++ "%" ∧
    (∃ pre frac, (metricsView pf).total_return_text =
        pre ++ "." ++ frac ++ "%" ∧ frac.length = 2) ∧
    (∃ pre frac, (metricsView pf).sharpe_ratio_text =
        pre ++ "." ++ frac ∧ frac.length = 2) ∧
    (∃ pre frac, (metricsView pf).max_drawdown_text =
        pre ++ "." ++ frac ++ "%" ∧ frac.length = 2) ∧
    (metricsView pf).stats_settings = ⟨0, "1D"⟩ ∧
    (metricsView pf).stats_table = pf.stats ⟨0, "1D"⟩ := by
  obtain ⟨p1, f1, h1, l1⟩ := fmt2_two_decimals (pf.total_return * 100)
  obtain ⟨p2, f2, h2, l2⟩ := fmt2_two_decimals pf.sharpe_ratio
  obtain ⟨p3, f3, h3, l3⟩ := fmt2_two_decimals (pf.max_drawdown * 100)
  refine ⟨rfl, rfl, rfl, ⟨p1, f1, ?_, l1⟩, ⟨p2, f2, ?_, l2⟩,
    ⟨p3, f3, ?_, l3⟩, rfl, rfl⟩
  · simp only [metricsView]
    rw [h1]
  · simp only [metricsView]
    rw [h2]
  · simp only [metricsView]
    rw [h3]

end Dashboard
